import Mathlib

/-!
# Verification of the watch-claude-think terminal rendering core

A shallow embedding, in Lean 4, of the custom terminal rendering and
diffing engine of the `watch-claude-think` repository:

* `src/lib/terminal-ops.ts` — ANSI primitives (`eraseLines`,
  `getClearSequence`), the line-count estimator `countTerminalLines`,
  and the operation executor `executeTerminalOperations`;
* `src/lib/custom-logger.ts` — the `CustomRenderLogger` class
  (`render`, `shouldDoFullRedraw`, `getDebugOps`, `getFullRedrawOps`,
  `getStaticOutputOps`, `getDynamicOutputOps`).

JavaScript strings become `String`, JS numbers used as integers become
`Int` (or `Nat` where the source only ever produces non-negative
counts), the mutable `this.state` of the class becomes explicit state
passing (`LoggerState → LoggerState × List TerminalOperation`), and the
write side effects of the executor become an explicit list of
`WriteEvent`s.
-/

/-! ## ANSI escape constants (`terminal-ops.ts`, `ANSI`) -/

namespace ANSI

def SYNC_START : String := "\x1b[?2026h"

def SYNC_END : String := "\x1b[?2026l"

def CURSOR_HIDE : String := "\x1b[?25l"

def CURSOR_SHOW : String := "\x1b[?25h"

def CURSOR_LEFT : String := "\x1b[G"

/-- `CURSOR_UP: (count = 1) => ...`; the renderer only ever calls it with
the default `count = 1`. -/
def CURSOR_UP (count : Nat) : String := "\x1b[" ++ toString count ++ "A"

def ERASE_LINE : String := "\x1b[2K"

def CLEAR_SCREEN_AND_SCROLLBACK : String := "\x1b[2J\x1b[3J\x1b[H"

def CLEAR_SCREEN_WINDOWS : String := "\x1b[2J\x1b[0f"

end ANSI

/-- Environment facts consulted by `getClearSequence`
(`process.platform`, `process.env.WT_SESSION`,
`process.env.TERM_PROGRAM`/`TERM_PROGRAM_VERSION`). -/
structure Platform where
  isWin32 : Bool
  /-- `!!process.env.WT_SESSION` -/
  wtSession : Bool
  /-- `process.env.TERM_PROGRAM === 'vscode' && !!process.env.TERM_PROGRAM_VERSION` -/
  isVSCode : Bool
deriving Repr, DecidableEq

/-- A POSIX platform (the non-`win32` branch). -/
def posixPlatform : Platform := ⟨false, false, false⟩

/-- `getClearSequence()` from `terminal-ops.ts`. -/
def getClearSequence (p : Platform) : String :=
  if p.isWin32 then
    if p.wtSession || p.isVSCode then ANSI.CLEAR_SCREEN_AND_SCROLLBACK
    else ANSI.CLEAR_SCREEN_WINDOWS
  else ANSI.CLEAR_SCREEN_AND_SCROLLBACK

/-- The loop body of `eraseLines`: for each of `count` lines emit
`ERASE_LINE`, with a `CURSOR_UP()` between consecutive lines (i.e. after
every line but the last). -/
def eraseLinesBody : Nat → String
  | 0 => ""
  | 1 => ANSI.ERASE_LINE
  | n + 2 => ANSI.ERASE_LINE ++ ANSI.CURSOR_UP 1 ++ eraseLinesBody (n + 1)

/-- `eraseLines(count)` from `terminal-ops.ts`: `count <= 0` yields the
empty string, otherwise the erase/up loop followed by `CURSOR_LEFT`. -/
def eraseLines (count : Int) : String :=
  if count ≤ 0 then ""
  else eraseLinesBody count.toNat ++ ANSI.CURSOR_LEFT

/-! ## The line-count estimator (`countTerminalLines`)

JS `line.replace(/\u001B\[[0-9;]*m/g, '')` strips SGR sequences: at each
position of the string, a leftmost match `ESC [ [0-9;]* m` is removed and
scanning resumes after it; a non-matching character is kept. Because the
parameter class `[0-9;]` excludes `m`, greedy matching never backtracks,
so the replacement is computed by the deterministic scan below. -/

/-- After having seen `ESC [`, consume `[0-9;]*` then `m`; return the
remainder of the string on a match. -/
def sgrSuffix : List Char → Option (List Char)
  | [] => none
  | c :: rest =>
    if c.isDigit || c = ';' then sgrSuffix rest
    else if c = 'm' then some rest
    else none

/-- Fuelled scan implementing the global SGR-stripping replace. Each step
consumes at least one character of the input, so fuel `= input length`
(as used in `stripSgr`) never runs out before the input is exhausted. -/
def stripSgrFuel : Nat → List Char → List Char
  | 0, _ => []
  | _ + 1, [] => []
  | n + 1, '\x1b' :: '[' :: rest =>
    match sgrSuffix rest with
    | some rest' => stripSgrFuel n rest'
    | none => '\x1b' :: stripSgrFuel n ('[' :: rest)
  | n + 1, c :: rest => c :: stripSgrFuel n rest

/-- `line.replace(/\u001B\[[0-9;]*m/g, '')`. -/
def stripSgr (l : List Char) : List Char := stripSgrFuel l.length l

/-- JS `text.split('\n')` for the one-character separator `'\n'`:
splitting at every newline, keeping empty segments, so the result always
has (number of newlines) + 1 entries. -/
def splitLines : List Char → List (List Char)
  | [] => [[]]
  | c :: rest =>
    if c = '\n' then [] :: splitLines rest
    else
      match splitLines rest with
      | l :: ls => (c :: l) :: ls
      | [] => [[c]]

/-- `countTerminalLines(text, terminalWidth)` from `terminal-ops.ts`:
empty text short-circuits to 0 (`if (!text) return 0`); non-positive
width falls back to `text.split('\n').length`; otherwise each
newline-separated line is SGR-stripped and contributes
`Math.ceil(lineWidth / terminalWidth)` rows, a zero-length line
contributing 1. -/
def countTerminalLines (text : String) (terminalWidth : Int) : Nat :=
  if text = "" then 0
  else if terminalWidth ≤ 0 then (splitLines text.toList).length
  else
    ((splitLines text.toList).map (fun line =>
      let lineWidth := (stripSgr line).length
      if lineWidth = 0 then 1
      else (lineWidth + terminalWidth.toNat - 1) / terminalWidth.toNat)).sum

/-! ## Terminal operations and the executor -/

/-- `TerminalOperation` from `terminal-ops.ts`. The optional
`scrollback?: boolean` is a `Bool` (absent ≡ `false`; the renderer always
supplies it explicitly). `clear.count` is a `Nat`: the renderer only ever
produces the non-negative results of `countTerminalLines`. -/
inductive TerminalOperation where
  | stdout (content : String) (scrollback : Bool)
  | stderr (content : String)
  | clear (count : Nat)
  | clearTerminal
  | cursorHide
  | cursorShow
  | synchronizedUpdateStart
  | synchronizedUpdateEnd
deriving Repr, DecidableEq

/-- One observable write performed by the executor: either
`terminal.stdout.write content` or `terminal.stderr.write content`. -/
inductive WriteEvent where
  | toStdout (content : String)
  | toStderr (content : String)
deriving Repr, DecidableEq

/-- The loop of `executeTerminalOperations`, carrying the pending
`buffer`. A `stderr` operation flushes a non-empty buffer to stdout
first; after the loop a non-empty buffer is flushed. -/
def executeOpsGo (p : Platform) (buffer : String) :
    List TerminalOperation → List WriteEvent
  | [] => if buffer ≠ "" then [.toStdout buffer] else []
  | op :: rest =>
    match op with
    | .stdout content _ => executeOpsGo p (buffer ++ content) rest
    | .stderr content =>
      (if buffer ≠ "" then [WriteEvent.toStdout buffer] else []) ++
        WriteEvent.toStderr content :: executeOpsGo p "" rest
    | .clear count => executeOpsGo p (buffer ++ eraseLines count) rest
    | .clearTerminal => executeOpsGo p (buffer ++ getClearSequence p) rest
    | .cursorHide => executeOpsGo p (buffer ++ ANSI.CURSOR_HIDE) rest
    | .cursorShow => executeOpsGo p (buffer ++ ANSI.CURSOR_SHOW) rest
    | .synchronizedUpdateStart => executeOpsGo p (buffer ++ ANSI.SYNC_START) rest
    | .synchronizedUpdateEnd => executeOpsGo p (buffer ++ ANSI.SYNC_END) rest

/-- `executeTerminalOperations(terminal, operations)` from
`terminal-ops.ts`, with the two write streams made observable as a list
of `WriteEvent`s in the order the writes happen. -/
def executeTerminalOperations (p : Platform) (operations : List TerminalOperation) :
    List WriteEvent :=
  executeOpsGo p "" operations

/-- The bytes a non-`stderr` operation contributes to the stdout buffer
(the `buffer +=` arm of the executor's `switch`); `stderr` contributes
nothing to the buffer. -/
def opBytes (p : Platform) : TerminalOperation → String
  | .stdout content _ => content
  | .stderr _ => ""
  | .clear count => eraseLines count
  | .clearTerminal => getClearSequence p
  | .cursorHide => ANSI.CURSOR_HIDE
  | .cursorShow => ANSI.CURSOR_SHOW
  | .synchronizedUpdateStart => ANSI.SYNC_START
  | .synchronizedUpdateEnd => ANSI.SYNC_END

/-- Whether an operation targets the error stream. -/
def isStderrOp : TerminalOperation → Bool
  | .stderr _ => true
  | _ => false

/-! ## The render-state engine (`custom-logger.ts`) -/

/-- `RenderFrame` from `custom-logger.ts`. -/
structure RenderFrame where
  /-- New static content to append (or empty on resize). -/
  staticOutput : String
  /-- Dynamic content (footer), freshly rendered. -/
  dynamicOutput : String
  columns : Int
  rows : Int
deriving Repr, DecidableEq

/-- `LoggerOptions`. `debug?: boolean` is a `Bool` (absent ≡ `false`). -/
structure LoggerOptions where
  isTTY : Bool
  debug : Bool
deriving Repr, DecidableEq

/-- `LoggerState` from `custom-logger.ts`. -/
structure LoggerState where
  /-- Accumulated static content over time. -/
  fullStaticOutput : String
  /-- Last dynamic output written (for clearing). -/
  previousDynamicOutput : String
  /-- Previous frame for comparison. -/
  prevFrame : RenderFrame
deriving Repr, DecidableEq

/-- The constructor of `CustomRenderLogger`. -/
def initState (initialFrame : RenderFrame) : LoggerState :=
  { fullStaticOutput := ""
    previousDynamicOutput := ""
    prevFrame := initialFrame }

/-- The characters removed by JS `String.prototype.trim`: the
ECMAScript *WhiteSpace* set (TAB, VT, FF, SP, NBSP, ZWNBSP and the
Unicode space separators) together with the *LineTerminator* set
(LF, CR, LS, PS). -/
def isJsWhitespace (c : Char) : Bool :=
  c.toNat = 0x09 || c.toNat = 0x0A || c.toNat = 0x0B || c.toNat = 0x0C ||
  c.toNat = 0x0D || c.toNat = 0x20 || c.toNat = 0xA0 || c.toNat = 0x1680 ||
  (0x2000 ≤ c.toNat && c.toNat ≤ 0x200A) ||
  c.toNat = 0x2028 || c.toNat = 0x2029 || c.toNat = 0x202F ||
  c.toNat = 0x205F || c.toNat = 0x3000 || c.toNat = 0xFEFF

/-- JS `s.trim()`: drop leading and trailing whitespace. -/
def jsTrim (s : String) : String :=
  String.mk (((s.data.dropWhile isJsWhitespace).reverse.dropWhile isJsWhitespace).reverse)

/-- Truthiness of `frame.staticOutput?.trim()`: the increment has
non-whitespace content. -/
def hasContent (s : String) : Bool := jsTrim s ≠ ""

/-- `shouldDoFullRedraw(frame)`. -/
def shouldDoFullRedraw (state : LoggerState) (frame : RenderFrame) : Bool :=
  frame.columns ≠ state.prevFrame.columns || frame.rows ≠ state.prevFrame.rows

/-- The accumulation snippet shared by `getDebugOps`, `getFullRedrawOps`
and `getStaticOutputOps`: append the increment with a blank-line
separator when the accumulator is non-empty. -/
def accumulateStatic (full staticOutput : String) : String :=
  if full ≠ "" then full ++ "\n" ++ staticOutput
  else full ++ staticOutput

/-- `getDebugOps(frame)`: full redraw every time. -/
def getDebugOps (state : LoggerState) (frame : RenderFrame) :
    LoggerState × List TerminalOperation :=
  let full :=
    if hasContent frame.staticOutput then accumulateStatic state.fullStaticOutput frame.staticOutput
    else state.fullStaticOutput
  ({ state with fullStaticOutput := full, prevFrame := frame },
   [.synchronizedUpdateStart,
    .clearTerminal,
    .stdout full true,
    .stdout frame.dynamicOutput true,
    .stdout "\n" true,
    .synchronizedUpdateEnd])

/-- `getFullRedrawOps(frame)`: accumulate any non-whitespace increment,
record `previousDynamicOutput = dynamicOutput + "\n"` and the new frame,
and emit the atomic clear-and-rewrite sequence. -/
def getFullRedrawOps (state : LoggerState) (frame : RenderFrame) :
    LoggerState × List TerminalOperation :=
  let full :=
    if hasContent frame.staticOutput then accumulateStatic state.fullStaticOutput frame.staticOutput
    else state.fullStaticOutput
  ({ fullStaticOutput := full
     previousDynamicOutput := frame.dynamicOutput ++ "\n"
     prevFrame := frame },
   [.synchronizedUpdateStart,
    .clearTerminal,
    .stdout full true,
    .stdout frame.dynamicOutput true,
    .stdout "\n" true,
    .synchronizedUpdateEnd])

/-- `getStaticOutputOps(frame)`: on a non-whitespace increment, clear the
previously shown dynamic region (measured at the previous frame's
width), append the increment to the accumulator (blank-line separator),
write it to scrollback with the separator prefix, and reset
`previousDynamicOutput` to empty. -/
def getStaticOutputOps (state : LoggerState) (frame : RenderFrame) :
    LoggerState × List TerminalOperation :=
  if ¬ hasContent frame.staticOutput then (state, [])
  else
    let needsExtraNewline := state.fullStaticOutput ≠ ""
    let full := accumulateStatic state.fullStaticOutput frame.staticOutput
    let linesToClear :=
      if state.previousDynamicOutput ≠ "" then
        countTerminalLines state.previousDynamicOutput state.prevFrame.columns
      else 0
    ({ state with fullStaticOutput := full, previousDynamicOutput := "" },
     (if linesToClear > 0 then [TerminalOperation.clear linesToClear] else []) ++
       [.stdout (if needsExtraNewline then "\n" ++ frame.staticOutput else frame.staticOutput)
          true])

/-- `getDynamicOutputOps(frame)`: no-op when `dynamicOutput + "\n"`
equals the tracked `previousDynamicOutput`; otherwise clear the tracked
region and rewrite the dynamic content off-scrollback. -/
def getDynamicOutputOps (state : LoggerState) (frame : RenderFrame) :
    LoggerState × List TerminalOperation :=
  let newOutput := frame.dynamicOutput ++ "\n"
  if newOutput = state.previousDynamicOutput then (state, [])
  else
    let linesToClear :=
      if state.previousDynamicOutput ≠ "" then
        countTerminalLines state.previousDynamicOutput state.prevFrame.columns
      else 0
    ({ state with previousDynamicOutput := newOutput },
     (if linesToClear > 0 then [TerminalOperation.clear linesToClear] else []) ++
       [.stdout frame.dynamicOutput false, .stdout "\n" false])

/-- `render(frame)` from `custom-logger.ts`: debug path, non-TTY path,
resize path, no-op short-circuit, then the normal static+dynamic phases
wrapped in synchronized-update markers when non-empty. -/
def render (options : LoggerOptions) (state : LoggerState) (frame : RenderFrame) :
    LoggerState × List TerminalOperation :=
  if options.debug then getDebugOps state frame
  else if ¬ options.isTTY then
    let state' := { state with prevFrame := frame }
    if frame.staticOutput ≠ "" then
      (state', [.stdout frame.staticOutput true])
    else (state', [])
  else if shouldDoFullRedraw state frame then getFullRedrawOps state frame
  else if ¬ hasContent frame.staticOutput ∧
      frame.dynamicOutput = state.prevFrame.dynamicOutput then
    (state, [])
  else
    let s1 := getStaticOutputOps state frame
    let s2 := getDynamicOutputOps s1.1 frame
    let ops := s1.2 ++ s2.2
    let state' := { s2.1 with prevFrame := frame }
    if ops = [] then (state', [])
    else (state', .synchronizedUpdateStart :: ops ++ [.synchronizedUpdateEnd])

/-- Iterate `render` over a list of frames, collecting each frame's
operation list. -/
def renderAll (options : LoggerOptions) (state : LoggerState) :
    List RenderFrame → LoggerState × List (List TerminalOperation)
  | [] => (state, [])
  | f :: fs =>
    let s1 := render options state f
    let s2 := renderAll options s1.1 fs
    (s2.1, s1.2 :: s2.2)

/-- Interactive, non-debug options: the configuration the spec's engine
describes. -/
def ttyOptions : LoggerOptions := ⟨true, false⟩

/-- Non-interactive, non-debug options. -/
def nonTTYOptions : LoggerOptions := ⟨false, false⟩

/-- Number of `'\n'` characters in a string (used to state the spec's
"raw newline count"). -/
def newlineCount (s : String) : Nat := s.toList.count '\n'

/-- The spec's separator rule as a join over a list of increments:
append each increment, preceded by one `"\n"` exactly when the
accumulator is already non-empty. -/
def joinIncrements (acc : String) (l : List String) : String :=
  l.foldl accumulateStatic acc

/-! ## Basic lemmas about the line-count estimator -/

theorem splitLines_ne_nil (l : List Char) : splitLines l ≠ [] := by
  induction l with
  | nil => simp [splitLines]
  | cons c rest ih =>
    simp only [splitLines]
    split
    · simp
    · rcases h : splitLines rest with _ | ⟨hd, tl⟩
      · simp
      · simp

theorem splitLines_length (l : List Char) :
    (splitLines l).length = l.count '\n' + 1 := by
  induction l with
  | nil => simp [splitLines]
  | cons c rest ih =>
    simp only [splitLines]
    by_cases hc : c = '\n'
    · subst hc
      simp [List.count_cons, ih]
    · rcases h : splitLines rest with _ | ⟨hd, tl⟩
      · exact absurd h (splitLines_ne_nil rest)
      · simp only [if_neg hc]
        have := ih
        rw [h] at this
        simp only [List.length_cons] at this ⊢
        simp [List.count_cons, hc, ← this]

/-! ## C2 — the estimator on the empty string -/

/-- C2 counterexample: the claim says `lineCount("", width) = 1` for
positive widths, but `countTerminalLines` short-circuits empty text
(`if (!text) return 0`) and returns 0 at width 80. -/
theorem c2_counterexample : ¬ (countTerminalLines "" 80 = 1) := by decide

/-- C2 (amended): for every width — in particular every positive one —
the line-count estimator applied to the empty string returns 0: the
`if (!text) return 0` guard fires before any per-line counting. -/
theorem c2_empty_text_zero (w : Int) : countTerminalLines "" w = 0 := by
  simp [countTerminalLines]

/-! ## C3 — the non-positive-width fallback -/

/-- C3 counterexample: at text `"a"` and width 0 the estimator returns
`"a".split('\n').length = 1`, not the raw newline count 0 claimed. -/
theorem c3_counterexample :
    countTerminalLines "a" 0 = 1 ∧ newlineCount "a" = 0 := by decide

/-- C3 (amended): for every text and every width ≤ 0 the estimator does
not raise (it is a total function) and returns the number of
newline-separated segments — the raw newline count **plus one** — except
that empty text still short-circuits to 0. -/
theorem c3_nonpositive_width (text : String) (w : Int) (hw : w ≤ 0) :
    countTerminalLines text w =
      if text = "" then 0 else newlineCount text + 1 := by
  by_cases h : text = ""
  · simp [h, countTerminalLines]
  · simp only [countTerminalLines, if_neg h, if_pos hw, newlineCount]
    exact splitLines_length text.toList

/-- C3 witness: the amended statement evaluated at `"a\nb"` and width
`-3`: two segments, one newline. -/
theorem c3_nonpositive_width_witness :
    countTerminalLines "a\nb" (-3) =
      if ("a\nb" : String) = "" then 0 else newlineCount "a\nb" + 1 :=
  c3_nonpositive_width "a\nb" (-3) (by decide)

/-! ## C1 — the second-message scenario -/

/-- The initial frame of a fresh interactive engine at dimensions
(80, 24). -/
def c1Frame0 : RenderFrame :=
  { staticOutput := "", dynamicOutput := "", columns := 80, rows := 24 }

/-- First frame: `incrementText = "Hello\n"`, `statusText = "footer"`. -/
def c1Frame1 : RenderFrame :=
  { staticOutput := "Hello\n", dynamicOutput := "footer", columns := 80, rows := 24 }

/-- Second frame: `incrementText = "World\n"`, same status, same dims. -/
def c1Frame2 : RenderFrame :=
  { staticOutput := "World\n", dynamicOutput := "footer", columns := 80, rows := 24 }

/-- State and operations after the first frame. -/
def c1Step1 : LoggerState × List TerminalOperation :=
  render ttyOptions (initState c1Frame0) c1Frame1

/-- State and operations after the second frame. -/
def c1Step2 : LoggerState × List TerminalOperation :=
  render ttyOptions c1Step1.1 c1Frame2

/-- C1 counterexample: the claim asserts the second frame clears
`lineCount("footer\n", 80) = 1` line with the status phase a no-op; in
fact the estimator gives 2 for `"footer\n"` (the trailing newline adds
an empty segment counting one row), the emitted clear is `clear 2` (no
`clear 1` is emitted), and the status phase is not a no-op: it rewrites
`"footer"` because the static phase reset the tracked status to empty. -/
theorem c1_counterexample :
    countTerminalLines "footer\n" 80 = 2 ∧
    TerminalOperation.clear 1 ∉ c1Step2.2 ∧
    TerminalOperation.stdout "footer" false ∈ c1Step2.2 := by decide

/-- C1 (amended): the second frame clears exactly
`lineCount("footer\n", 80) = 2` lines, writes `"\nWorld\n"` to
scrollback (leading blank-line separator), and then — because the static
phase reset the shown-status bookkeeping — rewrites the status
(`"footer"` and `"\n"`, both off-scrollback), all wrapped in
synchronized-update markers; afterwards the accumulated permanent text
is `"Hello\n\nWorld\n"`. -/
theorem c1_second_message :
    c1Step2.2 =
      [.synchronizedUpdateStart,
       .clear (countTerminalLines "footer\n" 80),
       .stdout "\nWorld\n" true,
       .stdout "footer" false,
       .stdout "\n" false,
       .synchronizedUpdateEnd] ∧
    c1Step2.1.fullStaticOutput = "Hello\n\nWorld\n" := by decide

/-! ## Structural lemmas about `render` on the interactive path -/

/-- On interactive, non-debug options `render` reduces to the resize /
no-op / incremental decision tree. -/
theorem render_tty_cases (st : LoggerState) (f : RenderFrame) :
    render ttyOptions st f =
      if shouldDoFullRedraw st f then getFullRedrawOps st f
      else if ¬ hasContent f.staticOutput ∧ f.dynamicOutput = st.prevFrame.dynamicOutput then
        (st, [])
      else
        let s1 := getStaticOutputOps st f
        let s2 := getDynamicOutputOps s1.1 f
        let ops := s1.2 ++ s2.2
        let state' := { s2.1 with prevFrame := f }
        if ops = [] then (state', [])
        else (state', .synchronizedUpdateStart :: ops ++ [.synchronizedUpdateEnd]) := rfl

theorem clearTerminal_not_mem_static (st : LoggerState) (f : RenderFrame) :
    TerminalOperation.clearTerminal ∉ (getStaticOutputOps st f).2 := by
  by_cases h1 : hasContent f.staticOutput <;>
  by_cases h2 : st.previousDynamicOutput ≠ "" <;>
  by_cases h3 : st.fullStaticOutput ≠ "" <;>
  by_cases h4 : 0 < countTerminalLines st.previousDynamicOutput st.prevFrame.columns <;>
  simp [getStaticOutputOps, h1, h2, h3, h4]

theorem clearTerminal_not_mem_dynamic (st : LoggerState) (f : RenderFrame) :
    TerminalOperation.clearTerminal ∉ (getDynamicOutputOps st f).2 := by
  by_cases h1 : f.dynamicOutput ++ "\n" = st.previousDynamicOutput <;>
  by_cases h2 : st.previousDynamicOutput ≠ "" <;>
  by_cases h3 : 0 < countTerminalLines st.previousDynamicOutput st.prevFrame.columns <;>
  simp [getDynamicOutputOps, h1, h2, h3]

/-- The resize test as a proposition. -/
theorem shouldDoFullRedraw_iff (st : LoggerState) (f : RenderFrame) :
    shouldDoFullRedraw st f = true ↔
      (f.columns ≠ st.prevFrame.columns ∨ f.rows ≠ st.prevFrame.rows) := by
  simp [shouldDoFullRedraw]

/-! ## C6 — idempotent no-op -/

/-- C6 (confirmed): on an interactive engine, a frame whose increment is
empty or all-whitespace (`trim` empty), whose status equals the previous
frame's status, and whose dimensions match, produces no operations and
leaves the entire engine state unchanged. -/
theorem c6_idempotent_noop (st : LoggerState) (f : RenderFrame)
    (hst : jsTrim f.staticOutput = "")
    (hdy : f.dynamicOutput = st.prevFrame.dynamicOutput)
    (hc : f.columns = st.prevFrame.columns)
    (hr : f.rows = st.prevFrame.rows) :
    render ttyOptions st f = (st, []) := by
  simp [render, ttyOptions, shouldDoFullRedraw, hasContent, hst, hdy, hc, hr]

/-- C6 witness: a concrete engine state with a shown status, given a
whitespace-only increment, the same status and the same dimensions. -/
theorem c6_idempotent_noop_witness :
    render ttyOptions
        { fullStaticOutput := "Hello\n"
          previousDynamicOutput := "footer\n"
          prevFrame := { staticOutput := "Hello\n", dynamicOutput := "footer",
                         columns := 80, rows := 24 } }
        { staticOutput := " \n ", dynamicOutput := "footer", columns := 80, rows := 24 } =
      ({ fullStaticOutput := "Hello\n"
         previousDynamicOutput := "footer\n"
         prevFrame := { staticOutput := "Hello\n", dynamicOutput := "footer",
                        columns := 80, rows := 24 } }, []) :=
  c6_idempotent_noop _ _ (by decide) (by decide) (by decide) (by decide)

/-! ## C7 — resize idempotence -/

/-- C7 (confirmed): on an interactive engine the full-redraw path — the
only source of a `clearTerminal` (clear-screen-and-scrollback)
operation — is taken exactly when the frame's columns or rows differ
from the stored previous frame's; a frame with identical dimensions
never produces a `clearTerminal`. -/
theorem c7_resize_idempotence (st : LoggerState) (f : RenderFrame) :
    TerminalOperation.clearTerminal ∈ (render ttyOptions st f).2 ↔
      (f.columns ≠ st.prevFrame.columns ∨ f.rows ≠ st.prevFrame.rows) := by
  rw [render_tty_cases]
  by_cases hd : f.columns ≠ st.prevFrame.columns ∨ f.rows ≠ st.prevFrame.rows
  · have hb : shouldDoFullRedraw st f = true := (shouldDoFullRedraw_iff st f).mpr hd
    simp [hb, getFullRedrawOps, hd]
  · have hb : shouldDoFullRedraw st f = false := by
      cases h : shouldDoFullRedraw st f with
      | false => rfl
      | true => exact absurd ((shouldDoFullRedraw_iff st f).mp h) hd
    simp only [hb, Bool.false_eq_true, if_false]
    split
    · simp [hd]
    · split
      · simp [hd]
      · have h1 := clearTerminal_not_mem_static st f
        have h2 := clearTerminal_not_mem_dynamic (getStaticOutputOps st f).1 f
        simp [List.mem_cons, List.mem_append, h1, h2, hd]

/-! ## C5 — the resize path -/

/-- C5 counterexample: the claim says *any non-empty* increment is
appended on the resize path, but a whitespace-only increment such as
`" "` is non-empty yet fails `staticOutput?.trim()` and is silently
dropped: the accumulator stays `""` instead of becoming `" "`. -/
theorem c5_counterexample :
    ((" " : String) ≠ "") ∧
    (render ttyOptions
        (initState { staticOutput := "", dynamicOutput := "", columns := 80, rows := 24 })
        { staticOutput := " ", dynamicOutput := "f", columns := 100, rows := 24 }).1.fullStaticOutput
      ≠ accumulateStatic "" " " := by decide

/-- C5 (amended): for every interactive engine state and every frame
whose columns or rows differ from the stored previous frame's, `render`
returns exactly [begin-atomic, clear-screen-and-scrollback,
write(accumulated, scrollback), write(status, scrollback),
write("\n", scrollback), end-atomic], where any increment with
non-whitespace content (not merely non-empty) is first appended to the
accumulator under the separator rule; afterwards the tracked shown
status is `statusText ++ "\n"` and the stored frame (hence its
dimensions) is the new frame. -/
theorem c5_resize_full_redraw (st : LoggerState) (f : RenderFrame)
    (h : f.columns ≠ st.prevFrame.columns ∨ f.rows ≠ st.prevFrame.rows) :
    render ttyOptions st f =
      ({ fullStaticOutput :=
           if hasContent f.staticOutput then
             accumulateStatic st.fullStaticOutput f.staticOutput
           else st.fullStaticOutput
         previousDynamicOutput := f.dynamicOutput ++ "\n"
         prevFrame := f },
       [.synchronizedUpdateStart,
        .clearTerminal,
        .stdout (if hasContent f.staticOutput then
                   accumulateStatic st.fullStaticOutput f.staticOutput
                 else st.fullStaticOutput) true,
        .stdout f.dynamicOutput true,
        .stdout "\n" true,
        .synchronizedUpdateEnd]) := by
  rw [render_tty_cases, if_pos ((shouldDoFullRedraw_iff st f).mpr h)]
  rfl

/-- Engine state and frame for the C5 witness: fresh engine at (80, 24),
frame with content at width 100. -/
def c5WitnessState : LoggerState :=
  initState { staticOutput := "", dynamicOutput := "", columns := 80, rows := 24 }

def c5WitnessFrame : RenderFrame :=
  { staticOutput := "Hi\n", dynamicOutput := "s", columns := 100, rows := 24 }

/-- C5 witness: the amended statement at a concrete resize frame. -/
theorem c5_resize_full_redraw_witness :
    render ttyOptions c5WitnessState c5WitnessFrame =
      ({ fullStaticOutput :=
           if hasContent c5WitnessFrame.staticOutput then
             accumulateStatic c5WitnessState.fullStaticOutput c5WitnessFrame.staticOutput
           else c5WitnessState.fullStaticOutput
         previousDynamicOutput := c5WitnessFrame.dynamicOutput ++ "\n"
         prevFrame := c5WitnessFrame },
       [.synchronizedUpdateStart,
        .clearTerminal,
        .stdout (if hasContent c5WitnessFrame.staticOutput then
                   accumulateStatic c5WitnessState.fullStaticOutput c5WitnessFrame.staticOutput
                 else c5WitnessState.fullStaticOutput) true,
        .stdout c5WitnessFrame.dynamicOutput true,
        .stdout "\n" true,
        .synchronizedUpdateEnd]) :=
  c5_resize_full_redraw c5WitnessState c5WitnessFrame (Or.inl (by decide))

/-! ## C4 — monotonic accumulation -/

theorem getStaticOutputOps_fullStatic_of_content (st : LoggerState) (f : RenderFrame)
    (hs : hasContent f.staticOutput) :
    ((getStaticOutputOps st f).1).fullStaticOutput
      = accumulateStatic st.fullStaticOutput f.staticOutput := by
  simp [getStaticOutputOps, hs]

theorem getStaticOutputOps_prevFrame (st : LoggerState) (f : RenderFrame) :
    ((getStaticOutputOps st f).1).prevFrame = st.prevFrame := by
  by_cases hs : hasContent f.staticOutput <;> simp [getStaticOutputOps, hs]

theorem getDynamicOutputOps_fullStatic (st : LoggerState) (f : RenderFrame) :
    ((getDynamicOutputOps st f).1).fullStaticOutput = st.fullStaticOutput := by
  by_cases h1 : f.dynamicOutput ++ "\n" = st.previousDynamicOutput <;>
  simp [getDynamicOutputOps, h1]

theorem getDynamicOutputOps_prevFrame (st : LoggerState) (f : RenderFrame) :
    ((getDynamicOutputOps st f).1).prevFrame = st.prevFrame := by
  by_cases h1 : f.dynamicOutput ++ "\n" = st.previousDynamicOutput <;>
  simp [getDynamicOutputOps, h1]

/-- One same-dimensions frame with a contentful increment appends the
increment (separator rule) and stores the frame. -/
theorem render_normal_step (st : LoggerState) (f : RenderFrame)
    (hc : f.columns = st.prevFrame.columns) (hr : f.rows = st.prevFrame.rows)
    (hs : hasContent f.staticOutput) :
    (render ttyOptions st f).1.fullStaticOutput
      = accumulateStatic st.fullStaticOutput f.staticOutput ∧
    (render ttyOptions st f).1.prevFrame = f := by
  have hb : ¬ (shouldDoFullRedraw st f = true) := by
    simp [shouldDoFullRedraw, hc, hr]
  rw [render_tty_cases, if_neg hb, if_neg (by simp [hs])]
  dsimp only
  constructor
  · split
    · exact (getDynamicOutputOps_fullStatic _ f).trans
        (getStaticOutputOps_fullStatic_of_content st f hs)
    · exact (getDynamicOutputOps_fullStatic _ f).trans
        (getStaticOutputOps_fullStatic_of_content st f hs)
  · split
    · rfl
    · rfl

/-- Accumulation over a whole sequence of contentful same-dimension
frames, from an arbitrary starting state. -/
theorem renderAll_accumulate (fs : List RenderFrame) (st : LoggerState)
    (h : ∀ f ∈ fs, f.columns = st.prevFrame.columns ∧ f.rows = st.prevFrame.rows ∧
      hasContent f.staticOutput) :
    (renderAll ttyOptions st fs).1.fullStaticOutput
      = joinIncrements st.fullStaticOutput (fs.map (·.staticOutput)) ∧
    (renderAll ttyOptions st fs).1.prevFrame.columns = st.prevFrame.columns ∧
    (renderAll ttyOptions st fs).1.prevFrame.rows = st.prevFrame.rows := by
  induction fs generalizing st with
  | nil => simp [renderAll, joinIncrements]
  | cons f fs ih =>
    obtain ⟨hc, hr, hs⟩ := h f (List.mem_cons_self _ _)
    have step := render_normal_step st f hc hr hs
    have hrest : ∀ g ∈ fs,
        g.columns = (render ttyOptions st f).1.prevFrame.columns ∧
        g.rows = (render ttyOptions st f).1.prevFrame.rows ∧
        hasContent g.staticOutput := by
      intro g hg
      obtain ⟨h1, h2, h3⟩ := h g (List.mem_cons_of_mem _ hg)
      rw [step.2]
      exact ⟨h1.trans hc.symm, h2.trans hr.symm, h3⟩
    have ihh := ih (render ttyOptions st f).1 hrest
    simp only [renderAll]
    refine ⟨?_, ?_, ?_⟩
    · rw [ihh.1, step.1]
      simp [joinIncrements]
    · rw [ihh.2.1, step.2, hc]
    · rw [ihh.2.2, step.2, hr]

/-- C4 counterexample: the claim covers every frame with *non-empty*
increment, but a whitespace-only increment such as `" "` is non-empty
yet skipped by the `staticOutput?.trim()` guard, so the final
accumulator is `""`, not the separator-rule join `" "`. -/
theorem c4_counterexample :
    ((" " : String) ≠ "") ∧
    (renderAll ttyOptions
        (initState { staticOutput := "", dynamicOutput := "", columns := 80, rows := 24 })
        [{ staticOutput := " ", dynamicOutput := "s", columns := 80, rows := 24 }]).1.fullStaticOutput
      ≠ joinIncrements "" [" "] := by decide

/-- C4 (amended): for any sequence of frames each with an increment that
has non-whitespace content (not merely non-empty) and dimensions equal
to the engine's previous frame throughout (no resize), the final
accumulated permanent text equals the increments joined in arrival
order by the separator rule, regardless of how the status texts vary. -/
theorem c4_monotonic_accumulation (f0 : RenderFrame) (fs : List RenderFrame)
    (h : ∀ f ∈ fs, f.columns = f0.columns ∧ f.rows = f0.rows ∧ hasContent f.staticOutput) :
    (renderAll ttyOptions (initState f0) fs).1.fullStaticOutput
      = joinIncrements "" (fs.map (·.staticOutput)) :=
  (renderAll_accumulate fs (initState f0) h).1

/-- C4 witness: two contentful frames with changing status at fixed
dimensions accumulate to the separator-rule join. -/
theorem c4_monotonic_accumulation_witness :
    (renderAll ttyOptions
        (initState { staticOutput := "", dynamicOutput := "", columns := 80, rows := 24 })
        [{ staticOutput := "A\n", dynamicOutput := "s", columns := 80, rows := 24 },
         { staticOutput := "B\n", dynamicOutput := "t", columns := 80, rows := 24 }]).1.fullStaticOutput
      = joinIncrements "" ["A\n", "B\n"] :=
  c4_monotonic_accumulation _ _ (by decide)

/-! ## C8 — status never in scrollback on the normal path -/

/-- The content discipline of a single normal-path frame: a
scrollback-targeted write carries only the increment (possibly with its
leading separator newline); a non-scrollback write carries only the
status text or its trailing newline; all other operations are neutral. -/
def scrollbackSeparation (f : RenderFrame) : TerminalOperation → Prop
  | .stdout c true => c = f.staticOutput ∨ c = "\n" ++ f.staticOutput
  | .stdout c false => c = f.dynamicOutput ∨ c = "\n"
  | _ => True

theorem static_ops_scrollbackSeparation (st : LoggerState) (f : RenderFrame) :
    ∀ op ∈ (getStaticOutputOps st f).2, scrollbackSeparation f op := by
  by_cases h1 : hasContent f.staticOutput <;>
  by_cases h2 : st.previousDynamicOutput ≠ "" <;>
  by_cases h3 : st.fullStaticOutput ≠ "" <;>
  by_cases h4 : 0 < countTerminalLines st.previousDynamicOutput st.prevFrame.columns <;>
  simp [getStaticOutputOps, scrollbackSeparation, h1, h2, h3, h4]

theorem dynamic_ops_scrollbackSeparation (st : LoggerState) (f : RenderFrame) :
    ∀ op ∈ (getDynamicOutputOps st f).2, scrollbackSeparation f op := by
  by_cases h1 : f.dynamicOutput ++ "\n" = st.previousDynamicOutput <;>
  by_cases h2 : st.previousDynamicOutput ≠ "" <;>
  by_cases h3 : 0 < countTerminalLines st.previousDynamicOutput st.prevFrame.columns <;>
  simp [getDynamicOutputOps, scrollbackSeparation, h1, h2, h3]

/-- Every operation of one same-dimensions (normal-path) frame respects
the scrollback separation discipline. -/
theorem render_samedims_scrollback (st : LoggerState) (f : RenderFrame)
    (hc : f.columns = st.prevFrame.columns) (hr : f.rows = st.prevFrame.rows) :
    ∀ op ∈ (render ttyOptions st f).2, scrollbackSeparation f op := by
  have hb : ¬ (shouldDoFullRedraw st f = true) := by
    simp [shouldDoFullRedraw, hc, hr]
  rw [render_tty_cases, if_neg hb]
  split
  · simp
  · dsimp only
    split
    · simp
    · intro op hop
      rcases List.mem_cons.mp hop with rfl | hop2
      · trivial
      · rcases List.mem_append.mp hop2 with hop3 | hop4
        · rcases List.mem_append.mp hop3 with h | h
          · exact static_ops_scrollbackSeparation st f op h
          · exact dynamic_ops_scrollbackSeparation _ f op h
        · have he := List.mem_singleton.mp hop4
          subst he; trivial

/-- After any interactive frame the stored previous frame is either
unchanged (no-op) or the new frame. -/
theorem render_prevFrame_cases (st : LoggerState) (f : RenderFrame) :
    (render ttyOptions st f).1.prevFrame = st.prevFrame ∨
    (render ttyOptions st f).1.prevFrame = f := by
  rw [render_tty_cases]
  split
  · right; rfl
  · split
    · left; rfl
    · dsimp only
      split
      · right; rfl
      · right; rfl

/-- C8 (confirmed): over any sequence of same-dimension (normal-path)
frames on an interactive engine, each frame's emitted operations send
only permanent content (the increment, optionally prefixed with its
separator newline) to scrollback, and the status text and its trailing
newline appear only in non-scrollback writes. -/
theorem c8_status_never_in_scrollback (st : LoggerState) (fs : List RenderFrame)
    (h : ∀ f ∈ fs, f.columns = st.prevFrame.columns ∧ f.rows = st.prevFrame.rows) :
    List.Forall₂ (fun f ops => ∀ op ∈ ops, scrollbackSeparation f op) fs
      (renderAll ttyOptions st fs).2 := by
  induction fs generalizing st with
  | nil => simp [renderAll]
  | cons f fs ih =>
    obtain ⟨hc, hr⟩ := h f (List.mem_cons_self _ _)
    simp only [renderAll]
    refine List.Forall₂.cons (render_samedims_scrollback st f hc hr) (ih _ ?_)
    intro g hg
    obtain ⟨h1, h2⟩ := h g (List.mem_cons_of_mem _ hg)
    rcases render_prevFrame_cases st f with hp | hp <;> rw [hp]
    · exact ⟨h1, h2⟩
    · exact ⟨h1.trans hc.symm, h2.trans hr.symm⟩

/-- C8 witness: a two-frame normal-path sequence (one contentful frame,
one status-only frame) from a fresh engine. -/
theorem c8_status_never_in_scrollback_witness :
    List.Forall₂ (fun f ops => ∀ op ∈ ops, scrollbackSeparation f op)
      [{ staticOutput := "msg\n", dynamicOutput := "status", columns := 80, rows := 24 },
       { staticOutput := "", dynamicOutput := "status2", columns := 80, rows := 24 }]
      (renderAll ttyOptions
        (initState { staticOutput := "", dynamicOutput := "", columns := 80, rows := 24 })
        [{ staticOutput := "msg\n", dynamicOutput := "status", columns := 80, rows := 24 },
         { staticOutput := "", dynamicOutput := "status2", columns := 80, rows := 24 }]).2 :=
  c8_status_never_in_scrollback _ _ (by decide)

/-! ## C9 — executor single flush -/

/-- The concatenation, in list order, of the bytes each operation
contributes to the stdout buffer. -/
def concatBytes (p : Platform) : List TerminalOperation → String
  | [] => ""
  | op :: rest => opBytes p op ++ concatBytes p rest

theorem executeOpsGo_step (p : Platform) (buffer : String) (op : TerminalOperation)
    (rest : List TerminalOperation) (h : isStderrOp op = false) :
    executeOpsGo p buffer (op :: rest) = executeOpsGo p (buffer ++ opBytes p op) rest := by
  cases op <;> simp_all [executeOpsGo, opBytes, isStderrOp]

theorem executeOpsGo_no_stderr (p : Platform) (ops : List TerminalOperation)
    (h : ∀ op ∈ ops, isStderrOp op = false) (buffer : String) :
    executeOpsGo p buffer ops =
      if buffer ++ concatBytes p ops = "" then []
      else [WriteEvent.toStdout (buffer ++ concatBytes p ops)] := by
  induction ops generalizing buffer with
  | nil => simp [executeOpsGo, concatBytes, ite_not]
  | cons op rest ih =>
    rw [executeOpsGo_step p buffer op rest (h op (List.mem_cons_self _ _)),
        ih (fun o ho => h o (List.mem_cons_of_mem _ ho))]
    simp [concatBytes, String.append_assoc]

theorem executeOpsGo_stderr_split (p : Platform) (pre : List TerminalOperation)
    (c : String) (post : List TerminalOperation)
    (h : ∀ op ∈ pre, isStderrOp op = false) (buffer : String) :
    executeOpsGo p buffer (pre ++ .stderr c :: post) =
      (if buffer ++ concatBytes p pre = "" then []
       else [WriteEvent.toStdout (buffer ++ concatBytes p pre)]) ++
        WriteEvent.toStderr c :: executeOpsGo p "" post := by
  induction pre generalizing buffer with
  | nil => simp [executeOpsGo, concatBytes, ite_not]
  | cons op rest ih =>
    rw [List.cons_append,
        executeOpsGo_step p buffer op _ (h op (List.mem_cons_self _ _)),
        ih (fun o ho => h o (List.mem_cons_of_mem _ ho))]
    simp [concatBytes, String.append_assoc]

/-- C9 counterexample: `[stdout ""]` is a non-empty operation list with
no stderr operation, yet the executor performs no write at all (not
"exactly one"): the accumulated buffer is empty and the final
`if (buffer)` guard skips the flush. -/
theorem c9_counterexample :
    (∀ op ∈ [TerminalOperation.stdout "" true], isStderrOp op = false) ∧
    ([TerminalOperation.stdout "" true] ≠ ([] : List TerminalOperation)) ∧
    executeTerminalOperations posixPlatform [TerminalOperation.stdout "" true] = [] := by
  decide

/-- C9 (amended): for every operation list with no stderr operation the
executor performs exactly one stdout write of the concatenation, in list
order, of each operation's rendered bytes — unless that concatenation is
empty (in particular for the empty list), in which case nothing is
written; and a stderr operation first flushes the pending stdout bytes
(when non-empty) before writing its content to the error stream,
preserving order. -/
theorem c9_executor_single_flush :
    (∀ (p : Platform) (ops : List TerminalOperation),
        (∀ op ∈ ops, isStderrOp op = false) →
        executeTerminalOperations p ops =
          if concatBytes p ops = "" then []
          else [WriteEvent.toStdout (concatBytes p ops)]) ∧
    (∀ (p : Platform) (pre : List TerminalOperation) (c : String)
        (post : List TerminalOperation),
        (∀ op ∈ pre, isStderrOp op = false) →
        executeTerminalOperations p (pre ++ .stderr c :: post) =
          (if concatBytes p pre = "" then []
           else [WriteEvent.toStdout (concatBytes p pre)]) ++
            WriteEvent.toStderr c :: executeTerminalOperations p post) := by
  constructor
  · intro p ops h
    rw [executeTerminalOperations, executeOpsGo_no_stderr p ops h ""]
    simp
  · intro p pre c post h
    rw [executeTerminalOperations, executeOpsGo_stderr_split p pre c post h ""]
    simp [executeTerminalOperations]

/-- C9 witness: both conjuncts applied to concrete operation lists (a
stderr-free synchronized update, and a list with one stderr in the
middle). -/
theorem c9_executor_single_flush_witness :
    (executeTerminalOperations posixPlatform
        [.synchronizedUpdateStart, .stdout "hi" true, .clear 1, .synchronizedUpdateEnd] =
      if concatBytes posixPlatform
          [.synchronizedUpdateStart, .stdout "hi" true, .clear 1, .synchronizedUpdateEnd] = "" then []
      else [WriteEvent.toStdout (concatBytes posixPlatform
        [.synchronizedUpdateStart, .stdout "hi" true, .clear 1, .synchronizedUpdateEnd])]) ∧
    (executeTerminalOperations posixPlatform
        ([.stdout "a" true] ++ .stderr "oops" :: [.stdout "b" false]) =
      (if concatBytes posixPlatform [.stdout "a" true] = "" then []
       else [WriteEvent.toStdout (concatBytes posixPlatform [.stdout "a" true])]) ++
        WriteEvent.toStderr "oops" :: executeTerminalOperations posixPlatform [.stdout "b" false]) :=
  ⟨c9_executor_single_flush.1 posixPlatform _ (by decide),
   c9_executor_single_flush.2 posixPlatform _ "oops" _ (by decide)⟩

/-! ## C10 — non-interactive mode never accumulates -/

/-- On a non-TTY engine (debug off), `render` only stores the new frame:
the accumulator and the tracked shown status are untouched. -/
theorem render_nonTTY_state (st : LoggerState) (f : RenderFrame) :
    (render nonTTYOptions st f).1 = { st with prevFrame := f } := by
  by_cases h : f.staticOutput ≠ "" <;> simp [render, nonTTYOptions, h]

theorem renderAll_nonTTY_state (fs : List RenderFrame) (st : LoggerState) :
    (renderAll nonTTYOptions st fs).1.fullStaticOutput = st.fullStaticOutput ∧
    (renderAll nonTTYOptions st fs).1.previousDynamicOutput = st.previousDynamicOutput := by
  induction fs generalizing st with
  | nil => exact ⟨rfl, rfl⟩
  | cons f fs ih =>
    simp only [renderAll]
    rw [render_nonTTY_state st f]
    simpa using ih { st with prevFrame := f }

/-- C10 (confirmed): with `isTTY = false` and debug off, every render
call leaves `fullStaticOutput` and `previousDynamicOutput` unchanged and
only updates the stored previous frame; consequently, starting from the
constructor state, the accumulated permanent text stays `""` across any
sequence of frames — so no later dimension change can replay earlier
increments. -/
theorem c10_nonTTY_never_accumulates :
    (∀ (st : LoggerState) (f : RenderFrame),
        (render nonTTYOptions st f).1 = { st with prevFrame := f }) ∧
    (∀ (f0 : RenderFrame) (fs : List RenderFrame),
        (renderAll nonTTYOptions (initState f0) fs).1.fullStaticOutput = "") :=
  ⟨render_nonTTY_state,
   fun f0 fs => (renderAll_nonTTY_state fs (initState f0)).1⟩
